import Mathlib

/-!
Shallow embedding of the iterative DNS resolver in `resolver.py` and
`mydig.py` (the two scripts are near-duplicates; where they differ the
differences are modelled separately and noted).

External collaborators (dnspython message construction and the UDP
transport) are modelled as an oracle function from the outgoing query
message and the server address to an optional / fallible parsed response.
DNS record-type codes are the dnspython numeric codes (A = 1, NS = 2,
CNAME = 5, AAAA = 28).  Elapsed times are modelled as naturals
(milliseconds); no claim computes with them.
-/

set_option maxRecDepth 4000

namespace DnsResolver

/-- dnspython rdata type codes used by the scripts. -/
abbrev RdType := Nat

def dnsA : RdType := 1
def dnsNS : RdType := 2
def dnsCNAME : RdType := 5
def dnsAAAA : RdType := 28

/-- One resource record inside a record set.  Address-type rdata (A/AAAA)
carry an `address`; NS and CNAME rdata carry a `target`.  The scripts probe
these with attribute access (`r.address`, `str(r.target)`,
`hasattr(rr, "address")`), modelled as `Option` fields. -/
structure RData where
  address : Option String := none
  target : Option String := none
deriving DecidableEq, Repr

/-- A record set (dnspython `RRset`): owner name, TTL, type tag and records. -/
structure RRset where
  name : String
  ttl : Nat
  rdtype : RdType
  records : List RData
deriving DecidableEq, Repr

/-- A parsed DNS response: the three ordered sections the scripts read. -/
structure Response where
  answer : List RRset := []
  authority : List RRset := []
  additional : List RRset := []
deriving DecidableEq, Repr

/-- The outgoing query message: name, type and the header flag word
(16 bits; dnspython `make_query` starts from flags = RD = 0x0100). -/
structure QueryMsg where
  qname : String
  qtype : RdType
  flags : Nat
deriving DecidableEq, Repr

/-- The RD ("recursion desired") flag bit, dnspython `dns.flags.RD` = 0x0100. -/
def RD_FLAG : Nat := 256

/-- dnspython `dns.message.make_query(name, rdtype)`: fresh query whose
default header flags have exactly RD set. -/
def make_query (name : String) (rdtype : RdType) : QueryMsg :=
  { qname := name, qtype := rdtype, flags := RD_FLAG }

/-- `query.flags &= ~dns.flags.RD` — clear the recursion-desired bit
(16-bit flag word, so `~RD` is 0xFEFF = 65279). -/
def clear_rd (q : QueryMsg) : QueryMsg :=
  { q with flags := q.flags &&& 65279 }

/-- Transport oracle for `resolver.py`: `dns.query.udp` either yields a
parsed response or fails (timeout / network error), which `send_query`
there collapses to `None`. -/
abbrev Network := QueryMsg → String → Option Response

/-- `ROOT_SERVERS` — the static root hints table (13 IPv4 then 13 IPv6). -/
def ROOT_SERVERS : List String := [
  "198.41.0.4", "199.9.14.201", "192.33.4.12", "199.7.91.13",
  "192.203.230.10", "192.5.5.241", "192.112.36.4", "198.97.190.53",
  "192.36.148.17", "192.58.128.30", "193.0.14.129", "199.7.83.42",
  "202.12.27.33",
  "2001:503:ba3e::2:30", "2001:500:200::b", "2001:500:2::c",
  "2001:500:2d::d", "2001:500:a8::e", "2001:500:2f::f",
  "2001:500:12::d0d", "2001:500:1::53", "2001:7fe::53",
  "2001:503:c27::2:30", "2001:7fd::1", "2001:500:9f::42",
  "2001:dc3::35"]

def MAX_CNAME_CHAIN : Nat := 10

/-- `resolver.py` `send_query`: build the query, clear RD, send over UDP;
any transport exception is swallowed and `None` is returned. -/
def send_query (net : Network) (name : String) (rdtype : RdType)
    (server_ip : String) : Option Response :=
  net (clear_rd (make_query name rdtype)) server_ip

/-- `resolver.py` `resolve_once`: try the servers in listed order and return
the first response obtained (a parsed dnspython `Message` is always truthy,
so any non-`None` reply is taken); `None` if every server failed. -/
def resolve_once (net : Network) (domain : String) (rdtype : RdType) :
    List String → Option Response
  | [] => none
  | server :: rest =>
    match send_query net domain rdtype server with
    | some resp => some resp
    | none => resolve_once net domain rdtype rest

/-- `extract_glue_ips`: every address of every A/AAAA record set in the
additional section, in section order.  (dnspython A/AAAA rdata always carry
`address`; a hypothetical record without one would crash the script, so
that unreachable case is simply skipped here.) -/
def extract_glue_ips (response : Response) : List String :=
  response.additional.foldl
    (fun ips rrset =>
      if rrset.rdtype = dnsA ∨ rrset.rdtype = dnsAAAA then
        ips ++ rrset.records.filterMap (fun r => r.address)
      else ips)
    []

/-- Outcome of the `for rrset in resp.answer` scan in `iterative_resolve`:
either the walk returns the first record set matching the requested type,
or the scan completes holding the last CNAME target seen (if any). -/
inductive AnswerOutcome where
  | matched (rs : RRset)
  | noMatch (cname_target : Option String)
deriving DecidableEq, Repr

/-- `str(rrset[0].target)` — the target of the first record of a set.
A DNS name never prints as the empty string, so the source's truthiness
test `if cname_target:` is modelled by this `Option` being `some`. -/
def rrset_first_target (rs : RRset) : Option String :=
  rs.records.head?.bind (fun r => r.target)

/-- The answer-section scan of `iterative_resolve`: return at the first
record set whose type equals the requested type; otherwise remember the
(last) CNAME target.  Scanning an empty section is `noMatch none`, so the
source's enclosing `if resp.answer:` guard needs no separate case. -/
def answer_scan (rdtype : RdType) : List RRset → Option String → AnswerOutcome
  | [], cname_target => .noMatch cname_target
  | rrset :: rest, cname_target =>
    if rrset.rdtype = rdtype then .matched rrset
    else if rrset.rdtype = dnsCNAME then
      answer_scan rdtype rest (rrset_first_target rrset)
    else answer_scan rdtype rest cname_target

/-- Fatal walk errors of `resolver.py`'s `iterative_resolve` (the three
`RuntimeError`s it raises). -/
inductive RErr where
  | noResponse
  | cnameTooLong
  | noUsable
deriving DecidableEq, Repr

/-- The addresses one nameserver name contributes in `extract_ns_ips`:
errors of the nested walk are swallowed (`except Exception: continue`),
`if ns_ans:` keeps only a non-empty result, and addresses are read from
`ns_ans[0]` only, keeping records `rr` with `hasattr(rr, "address")`. -/
def ns_addresses {ε : Type} (outcome : Except ε (List RRset)) : List String :=
  match outcome with
  | .error _ => []
  | .ok [] => []
  | .ok (first :: _) => first.records.filterMap (fun rr => rr.address)

/-- The `for r in rrset` loop of `extract_ns_ips` over one NS record set:
resolve each target name with the given nested resolver and append the
addresses it yields; `none` when a nested walk never returns (models
divergence of the recursion, which has no fuel in the source). -/
def ns_ips_of_records {ε : Type}
    (resolve1 : String → RdType → Option (Except ε (List RRset)))
    (rdtype : RdType) : List RData → Option (List String)
  | [] => some []
  | r :: rest =>
    let ns_name := (r.target).getD ""
    match resolve1 ns_name rdtype with
    | none => none
    | some outcome =>
      match ns_ips_of_records resolve1 rdtype rest with
      | none => none
      | some restIps => some (ns_addresses outcome ++ restIps)

/-- The `for rrset in response.authority` loop of `extract_ns_ips`:
only NS record sets contribute. -/
def ns_ips_of_auth {ε : Type}
    (resolve1 : String → RdType → Option (Except ε (List RRset)))
    (rdtype : RdType) : List RRset → Option (List String)
  | [] => some []
  | rrset :: rest =>
    if rrset.rdtype = dnsNS then
      match ns_ips_of_records resolve1 rdtype rrset.records with
      | none => none
      | some here =>
        match ns_ips_of_auth resolve1 rdtype rest with
        | none => none
        | some there => some (here ++ there)
    else ns_ips_of_auth resolve1 rdtype rest

/-- `extract_ns_ips(response, rdtype)`: resolve the NS hostnames of the
authority section into IPs using the supplied nested resolver (the scripts
recursively call `iterative_resolve`; the caller instantiates `resolve1`
with the fuelled walk). -/
def extract_ns_ips_with {ε : Type}
    (resolve1 : String → RdType → Option (Except ε (List RRset)))
    (response : Response) (rdtype : RdType) : Option (List String) :=
  ns_ips_of_auth resolve1 rdtype response.authority

/-- The `while True:` loop of `resolver.py`'s `iterative_resolve`, with
explicit loop state (query name, alias-chain counter, current ServerSet)
and a fuel bound on the number of loop iterations / nested walks.
`none` means the walk has not terminated within `fuel` steps; the source
has no such bound and simply keeps running. -/
def resolveLoop (net : Network) :
    Nat → String → Nat → RdType → List String →
    Option (Except RErr (List RRset))
  | 0, _, _, _, _ => none
  | fuel + 1, qname, cname_chain, rdtype, current_servers =>
    match resolve_once net qname rdtype current_servers with
    | none => some (.error .noResponse)
    | some resp =>
      match answer_scan rdtype resp.answer none with
      | .matched rrset => some (.ok [rrset])
      | .noMatch (some cname_target) =>
        if cname_chain + 1 > MAX_CNAME_CHAIN then some (.error .cnameTooLong)
        else resolveLoop net fuel cname_target (cname_chain + 1) rdtype ROOT_SERVERS
      | .noMatch none =>
        match extract_glue_ips resp with
        | glue :: more => resolveLoop net fuel qname cname_chain rdtype (glue :: more)
        | [] =>
          match
            extract_ns_ips_with
              (fun n t => resolveLoop net fuel n 0 t ROOT_SERVERS) resp dnsA,
            extract_ns_ips_with
              (fun n t => resolveLoop net fuel n 0 t ROOT_SERVERS) resp dnsAAAA
          with
          | some ipsA, some ipsAAAA =>
            match ipsA ++ ipsAAAA with
            | ns :: more => resolveLoop net fuel qname cname_chain rdtype (ns :: more)
            | [] => some (.error .noUsable)
          | _, _ => none

/-- `resolver.py` `iterative_resolve(domain, rdtype)`: start the walk at the
root hints with alias-chain counter 0. -/
def iterative_resolve (net : Network) (fuel : Nat) (domain : String)
    (rdtype : RdType) : Option (Except RErr (List RRset)) :=
  resolveLoop net fuel domain 0 rdtype ROOT_SERVERS

/-! ## The `mydig.py` variant

`mydig.py` differs from `resolver.py` in `send_query` / `resolve_once`
(transport errors are re-raised with a message instead of returning
`None`) and in the racer's main loop (an `"error"` slot that is reported
as soon as it is seen).  Its transport oracle yields either a response or
the error detail string dnspython would put in the exception. -/

/-- Transport oracle for `mydig.py`: a parsed response or an error detail. -/
abbrev NetworkE := QueryMsg → String → Except String Response

/-- Walk-level errors of `mydig.py`: the re-raised per-server transport
error (`RuntimeError("Query to {server_ip} failed: {e}")`) and the three
fatal `RuntimeError`s of `iterative_resolve`. -/
inductive MyErr where
  | transport (server : String) (detail : String)
  | noResponse
  | cnameTooLong
  | noUsable
deriving DecidableEq, Repr

/-- `mydig.py` `send_query`: clear RD and send; a transport exception is
re-raised as `RuntimeError("Query to {server_ip} failed: {e}")`. -/
def send_query_mydig (net : NetworkE) (name : String) (rdtype : RdType)
    (server_ip : String) : Except MyErr Response :=
  match net (clear_rd (make_query name rdtype)) server_ip with
  | .ok resp => .ok resp
  | .error e => .error (.transport server_ip e)

/-- `mydig.py` `resolve_once`: try servers in order, remembering the last
error; if every server raised, re-raise that last error; `.ok none` (the
source's `return None`) only when the server list is exhausted without any
recorded error, i.e. it was empty. -/
def resolve_once_mydig (net : NetworkE) (domain : String) (rdtype : RdType) :
    List String → Option MyErr → Except MyErr (Option Response)
  | [], last_err =>
    match last_err with
    | some e => .error e
    | none => .ok none
  | server :: rest, _last_err =>
    match send_query_mydig net domain rdtype server with
    | .ok resp => .ok (some resp)
    | .error e => resolve_once_mydig net domain rdtype rest (some e)

/-- The `while True:` loop of `mydig.py`'s `iterative_resolve`.  Identical
to `resolver.py`'s except that `resolve_once` may raise, and that error
propagates out of the walk uncaught. -/
def mydigResolveLoop (net : NetworkE) :
    Nat → String → Nat → RdType → List String →
    Option (Except MyErr (List RRset))
  | 0, _, _, _, _ => none
  | fuel + 1, qname, cname_chain, rdtype, current_servers =>
    match resolve_once_mydig net qname rdtype current_servers none with
    | .error e => some (.error e)
    | .ok none => some (.error .noResponse)
    | .ok (some resp) =>
      match answer_scan rdtype resp.answer none with
      | .matched rrset => some (.ok [rrset])
      | .noMatch (some cname_target) =>
        if cname_chain + 1 > MAX_CNAME_CHAIN then some (.error .cnameTooLong)
        else mydigResolveLoop net fuel cname_target (cname_chain + 1) rdtype ROOT_SERVERS
      | .noMatch none =>
        match extract_glue_ips resp with
        | glue :: more => mydigResolveLoop net fuel qname cname_chain rdtype (glue :: more)
        | [] =>
          match
            extract_ns_ips_with
              (fun n t => mydigResolveLoop net fuel n 0 t ROOT_SERVERS) resp dnsA,
            extract_ns_ips_with
              (fun n t => mydigResolveLoop net fuel n 0 t ROOT_SERVERS) resp dnsAAAA
          with
          | some ipsA, some ipsAAAA =>
            match ipsA ++ ipsAAAA with
            | ns :: more => mydigResolveLoop net fuel qname cname_chain rdtype (ns :: more)
            | [] => some (.error .noUsable)
          | _, _ => none

/-- `mydig.py` `iterative_resolve(domain, rdtype)`. -/
def mydig_iterative_resolve (net : NetworkE) (fuel : Nat) (domain : String)
    (rdtype : RdType) : Option (Except MyErr (List RRset)) :=
  mydigResolveLoop net fuel domain 0 rdtype ROOT_SERVERS

/-! ## The Dual-Stack Racer and the shared result slot

`main` starts one walk per record type; each walk's `resolve_with_timing`
publishes into a shared dict (`result_holder`).  The dict is modelled as a
`Holder`; the main thread's polling decision each 50 ms tick is a pure
function of the holder and of which worker threads are still alive. -/

/-- The shared dict `result_holder` / `result`: an optional published
success `(rdtype, answers, elapsed-ms)` under key `"result"` and, in
`mydig.py` only, an optional error string under key `"error"`. -/
structure Holder where
  result? : Option (RdType × List RRset × Nat) := none
  error? : Option String := none
deriving DecidableEq, Repr

/-- What one iteration of the racer's polling loop decides. -/
inductive PollDecision where
  | publish (v : RdType × List RRset × Nat)
  | reportError (e : String)
  | lookupFailed
  | keepWaiting
deriving DecidableEq, Repr

/-- One iteration of `resolver.py` `main`'s polling loop: print the
published result if any; else, if no worker thread is alive, report
"Lookup failed"; else sleep and poll again. -/
def resolver_poll (h : Holder) (alive : List Bool) : PollDecision :=
  match h.result? with
  | some v => .publish v
  | none =>
    if alive.all (fun b => !b) then .lookupFailed else .keepWaiting

/-- One iteration of `mydig.py` `main`'s polling loop: like `resolver.py`'s
but an `"error"` slot, when present, is reported before liveness is even
consulted. -/
def mydig_poll (h : Holder) (alive : List Bool) : PollDecision :=
  match h.result? with
  | some v => .publish v
  | none =>
    match h.error? with
    | some e => .reportError e
    | none =>
      if alive.all (fun b => !b) then .lookupFailed else .keepWaiting

/-- The publish step of `resolve_with_timing` taken as one atomic unit:
`if "result" not in result_holder: result_holder["result"] = v`. -/
def publish_result (h : Holder) (v : RdType × List RRset × Nat) : Holder :=
  match h.result? with
  | some _ => h
  | none => { h with result? := some v }

/-- The per-thread state of the publish step when its two Python
statements — the membership test and the store — are separate steps that
the interpreter may interleave across threads. -/
structure WalkPub where
  checked : Bool := false
  sawAbsent : Bool := false
  wrote : Bool := false
deriving DecidableEq, Repr

/-- The whole race state for the fine-grained publish model: the shared
holder and the two walks' publish progress. -/
structure RaceState where
  holder : Holder := {}
  wa : WalkPub := {}
  wb : WalkPub := {}
deriving DecidableEq, Repr

/-- One walk executes its next pending publish statement: first the
membership test (`"result" not in result_holder`), then the conditional
store (`result_holder["result"] = v`, guarded by what the test saw). -/
def walk_pub_step (h : Holder) (w : WalkPub) (v : RdType × List RRset × Nat) :
    Holder × WalkPub :=
  if w.checked = false then
    (h, { w with checked := true, sawAbsent := h.result?.isNone })
  else if w.wrote = false then
    (if w.sawAbsent then { h with result? := some v } else h,
     { w with wrote := true })
  else (h, w)

/-- Run a schedule of interleaved publish statements; `true` schedules walk
A's next statement, `false` walk B's. -/
def race_run (vA vB : RdType × List RRset × Nat) :
    List Bool → RaceState → RaceState
  | [], st => st
  | who :: rest, st =>
    let st1 :=
      if who then
        let (h, w) := walk_pub_step st.holder st.wa vA
        { st with holder := h, wa := w }
      else
        let (h, w) := walk_pub_step st.holder st.wb vB
        { st with holder := h, wb := w }
    race_run vA vB rest st1

/-! ## Concrete fixtures

Small concrete record sets and transport oracles used to evaluate the
definitions on explicit inputs. -/

/-- An address record. -/
def aRec (ip : String) : RData := { address := some ip }

/-- A name-target record (NS / CNAME rdata). -/
def tRec (name : String) : RData := { target := some name }

/-- A one-record A record set. -/
def aRRset (owner ip : String) : RRset :=
  { name := owner, ttl := 300, rdtype := dnsA, records := [aRec ip] }

/-- A one-record CNAME record set. -/
def cnameRRset (owner tgt : String) : RRset :=
  { name := owner, ttl := 300, rdtype := dnsCNAME, records := [tRec tgt] }

/-- An NS record set naming the given nameservers. -/
def nsRRset (owner : String) (targets : List String) : RRset :=
  { name := owner, ttl := 300, rdtype := dnsNS, records := targets.map tRec }

/-- A transport that always replies with a glue-only referral: the walk
keeps replacing its ServerSet and never terminates. -/
def badNet : Network :=
  fun _ _ => some { additional := [aRRset "ns.x." "9.9.9.9"] }

/-- A transport whose very first reply answers the query with an A record. -/
def oneShotNet : Network :=
  fun q _ => some { answer := [aRRset q.qname "7.7.7.7"] }

/-- The CNAME chain `h0 → h1 → ... → h10`. -/
def chainPairs : List (String × String) :=
  [("h0", "h1"), ("h1", "h2"), ("h2", "h3"), ("h3", "h4"), ("h4", "h5"),
   ("h5", "h6"), ("h6", "h7"), ("h7", "h8"), ("h8", "h9"), ("h9", "h10")]

/-- A transport realising a 10-hop alias chain: each `hi` (i < 10) is a
CNAME to `h(i+1)` and `h10` finally carries the matching A answer. -/
def chainNet : Network :=
  fun q _ =>
    if q.qname = "h10" then some { answer := [aRRset "h10" "1.2.3.4"] }
    else
      match chainPairs.find? (fun p => p.1 = q.qname) with
      | some p => some { answer := [cnameRRset q.qname p.2] }
      | none => none

/-- A transport that answers every query with a CNAME to the same name:
an endless alias loop. -/
def loopNet : Network :=
  fun q _ => some { answer := [cnameRRset q.qname q.qname] }

/-- A `mydig.py` transport where every server fails with the same detail. -/
def allFailNet : NetworkE := fun _ _ => .error "timed out"

/-- A nested resolver for the NS-address extraction: the name `bad.` fails,
every other name resolves to `5.6.7.8`. -/
def demoNsResolve : String → RdType → Option (Except RErr (List RRset)) :=
  fun n _ =>
    if n = "bad." then some (.error .noResponse)
    else some (.ok [aRRset n "5.6.7.8"])

/-- An authority section with one bad and one good nameserver name. -/
def respBadGood : Response :=
  { authority := [nsRRset "zone." ["bad.", "good."]] }

/-- An authority section whose only nameserver name fails to resolve. -/
def respAllBad : Response :=
  { authority := [nsRRset "zone." ["bad."]] }

/-- A nested resolver returning TWO record sets; only the first one's
addresses may be used. -/
def demoTwoSets : String → RdType → Option (Except RErr (List RRset)) :=
  fun n _ => some (.ok [aRRset n "1.1.1.1", aRRset n "2.2.2.2"])

/-- An authority section with a single NS name. -/
def respOneNS : Response :=
  { authority := [nsRRset "zone." ["ns1.example."]] }

/-- A referral without answer or glue, delegating to `ns1.example.`. -/
def respAuthOnly : Response :=
  { authority := [nsRRset "com." ["ns1.example."]] }

/-- A transport realising a glueless delegation: queries for
`ns1.example.` are answered with an address of the queried type, and every
other query gets the glueless referral `respAuthOnly`. -/
def netNS : Network :=
  fun q _ =>
    if q.qname = "ns1.example." then
      some { answer := [{ name := "ns1.example.", ttl := 300, rdtype := q.qtype,
                          records := [aRec (if q.qtype = dnsA then "9.9.9.9" else "2001:db8::9")] }] }
    else some respAuthOnly

/-- An answer section with a CNAME first, then two matching A record sets. -/
def respMixed : Response :=
  { answer := [cnameRRset "example.com" "alias.example.",
               aRRset "example.com" "7.7.7.7",
               aRRset "example.com" "8.8.8.8"] }

/-- A transport that always returns `respMixed`. -/
def mixedNet : Network := fun _ _ => some respMixed

/-- A response carrying both glue and an NS delegation to a different name. -/
def respGlueAndNS : Response :=
  { authority := [nsRRset "com." ["other.ns."]],
    additional := [aRRset "a.gtld." "192.5.6.30"] }

/-- A transport that always returns `respGlueAndNS`. -/
def glueNet : Network := fun _ _ => some respGlueAndNS

/-- A `resolver.py` transport where every server fails (returns `None`). -/
def noneNet : Network := fun _ _ => none

/-- A published-result holder of `mydig.py` after one walk has stored an
error while no result has been published. -/
def errHolder : Holder := { error? := some "No response from any server" }

/-- The A walk's would-be published triple. -/
def vA : RdType × List RRset × Nat := (dnsA, [aRRset "example.com" "7.7.7.7"], 50)

/-- The AAAA walk's would-be published triple. -/
def vB : RdType × List RRset × Nat :=
  (dnsAAAA, [{ name := "example.com", ttl := 300, rdtype := dnsAAAA,
               records := [aRec "2001:db8::7"] }], 80)

/-! ## Helper lemmas -/

/-- The answer scan only ever returns a record set of the requested type. -/
theorem answer_scan_matched (rdtype : RdType) :
    ∀ (l : List RRset) (ct : Option String) (rs : RRset),
      answer_scan rdtype l ct = .matched rs → rs.rdtype = rdtype := by
  intro l
  induction l with
  | nil => intro ct rs h; simp [answer_scan] at h
  | cons a l ih =>
    intro ct rs h
    rw [answer_scan] at h
    by_cases ha : a.rdtype = rdtype
    · rw [if_pos ha] at h
      cases h; exact ha
    · rw [if_neg ha] at h
      by_cases hc : a.rdtype = dnsCNAME
      · rw [if_pos hc] at h; exact ih _ _ h
      · rw [if_neg hc] at h; exact ih _ _ h

/-- If `find?` locates a record set of the requested type in the answer
section, the scan returns exactly that set, whatever CNAME state it holds. -/
theorem find?_answer_scan (rdtype : RdType) :
    ∀ (l : List RRset) (rs : RRset),
      l.find? (fun s => s.rdtype == rdtype) = some rs →
      ∀ ct, answer_scan rdtype l ct = .matched rs := by
  intro l
  induction l with
  | nil => intro rs h; simp at h
  | cons a l ih =>
    intro rs h ct
    by_cases ha : a.rdtype = rdtype
    · rw [List.find?_cons_of_pos _ (by simpa using ha)] at h
      cases h
      rw [answer_scan, if_pos ha]
    · rw [List.find?_cons_of_neg _ (by simpa using ha)] at h
      rw [answer_scan, if_neg ha]
      by_cases hc : a.rdtype = dnsCNAME
      · rw [if_pos hc]; exact ih _ h _
      · rw [if_neg hc]; exact ih _ h _

/-- If every server's `send_query` fails, the probe returns `None`. -/
theorem resolve_once_none (net : Network) (domain : String) (rdtype : RdType) :
    ∀ servers : List String,
      (∀ s ∈ servers, send_query net domain rdtype s = none) →
      resolve_once net domain rdtype servers = none := by
  intro servers
  induction servers with
  | nil => intro _; rfl
  | cons a l ih =>
    intro h
    have ha := h a (by simp)
    simp [resolve_once, ha]
    exact ih (fun s hs => h s (by simp [hs]))

/-- In `mydig.py`, when every server's `send_query` raises, `resolve_once`
re-raises the LAST server's transport error, for any pending `last_err`. -/
theorem resolve_once_mydig_allfail (net : NetworkE) (domain : String)
    (rdtype : RdType) (err : String → String) :
    ∀ (init : List String) (last : String),
      (∀ s ∈ init ++ [last],
        net (clear_rd (make_query domain rdtype)) s = .error (err s)) →
      ∀ le, resolve_once_mydig net domain rdtype (init ++ [last]) le
        = .error (.transport last (err last)) := by
  intro init
  induction init with
  | nil =>
    intro last h le
    have hl := h last (by simp)
    simp [resolve_once_mydig, send_query_mydig, hl]
  | cons a init ih =>
    intro last h le
    have ha := h a (by simp)
    simp only [List.cons_append, resolve_once_mydig, send_query_mydig, ha]
    exact ih last (fun s hs => h s (by simp at hs ⊢; tauto)) _

/-- `badNet` keeps every walk alive for ever: any fuel is exhausted. -/
theorem badNet_loops (rdtype : RdType) :
    ∀ (fuel : Nat) (qname : String) (chain : Nat) (servers : List String),
      servers ≠ [] → resolveLoop badNet fuel qname chain rdtype servers = none := by
  intro fuel
  induction fuel with
  | zero => intro qname chain servers _; rfl
  | succ fuel ih =>
    intro qname chain servers hne
    match servers with
    | s :: rest =>
      have hprobe : resolve_once badNet qname rdtype (s :: rest)
          = some { additional := [aRRset "ns.x." "9.9.9.9"] } := rfl
      rw [resolveLoop, hprobe]
      exact ih qname chain ["9.9.9.9"] (by simp)

/-- Partial correctness of the walk loop: whenever it terminates it yields
a single record set of the requested type, or one of the three fatal
errors. -/
theorem resolveLoop_partial (net : Network) (rdtype : RdType)
    (r : Except RErr (List RRset)) :
    ∀ (fuel : Nat) (qname : String) (chain : Nat) (servers : List String),
      resolveLoop net fuel qname chain rdtype servers = some r →
      (∃ rs, r = .ok [rs] ∧ rs.rdtype = rdtype) ∨
        r = .error .noResponse ∨ r = .error .cnameTooLong ∨
        r = .error .noUsable := by
  intro fuel
  induction fuel with
  | zero => intro qname chain servers h; simp [resolveLoop] at h
  | succ fuel ih =>
    intro qname chain servers h
    rw [resolveLoop] at h
    split at h
    · cases h; right; left; rfl
    · rename_i resp hresp
      split at h
      · rename_i rs hscan
        cases h
        exact Or.inl ⟨rs, rfl, answer_scan_matched rdtype _ _ _ hscan⟩
      · rename_i tgt hscan
        split at h
        · cases h; right; right; left; rfl
        · exact ih _ _ _ h
      · split at h
        · exact ih _ _ _ h
        · split at h
          · rename_i ipsA ipsAAAA hA hAAAA
            split at h
            · exact ih _ _ _ h
            · cases h; right; right; right; rfl
          · simp at h

/-- Totality of the per-record NS collection when every nested walk
returns. -/
theorem ns_ips_of_records_total {ε : Type}
    (resolve1 : String → RdType → Option (Except ε (List RRset)))
    (rdtype : RdType) (htotal : ∀ n t, resolve1 n t ≠ none) :
    ∀ rs : List RData, (ns_ips_of_records resolve1 rdtype rs).isSome = true := by
  intro rs
  induction rs with
  | nil => rfl
  | cons r rest ih =>
    rw [ns_ips_of_records]
    have h1 := htotal ((r.target).getD "") rdtype
    match h2 : resolve1 ((r.target).getD "") rdtype with
    | none => exact absurd h2 h1
    | some outcome =>
      simp only []
      match h3 : ns_ips_of_records resolve1 rdtype rest with
      | none => rw [h3] at ih; simp at ih
      | some restIps => simp

/-- Totality of the authority-section NS collection when every nested walk
returns. -/
theorem ns_ips_of_auth_total {ε : Type}
    (resolve1 : String → RdType → Option (Except ε (List RRset)))
    (rdtype : RdType) (htotal : ∀ n t, resolve1 n t ≠ none) :
    ∀ l : List RRset, (ns_ips_of_auth resolve1 rdtype l).isSome = true := by
  intro l
  induction l with
  | nil => rfl
  | cons rrset rest ih =>
    rw [ns_ips_of_auth]
    by_cases hns : rrset.rdtype = dnsNS
    · simp only [hns, if_true]
      have h1 := ns_ips_of_records_total resolve1 rdtype htotal rrset.records
      match h2 : ns_ips_of_records resolve1 rdtype rrset.records with
      | none => rw [h2] at h1; simp at h1
      | some here =>
        simp only []
        match h3 : ns_ips_of_auth resolve1 rdtype rest with
        | none => rw [h3] at ih; simp at ih
        | some there => simp
    · simp only [hns, if_false]; exact ih

/-! ## Claim theorems -/

/-- C1: whenever `iterative_resolve` terminates, it returns a single record
set whose type equals the requested type, or exactly one of the three
walk-level fatal errors (NoResponse, AliasChainTooLong,
NoUsableAnswerOrDelegation).  Termination itself does not hold in general
(see the accompanying counterexample: an endless chain of glue referrals
keeps the walk running forever despite bounded per-call timeouts and the
bounded alias chain). -/
theorem resolve_partial_correctness (net : Network) (fuel : Nat)
    (domain : String) (rdtype : RdType) (r : Except RErr (List RRset))
    (h : iterative_resolve net fuel domain rdtype = some r) :
    (∃ rs, r = .ok [rs] ∧ rs.rdtype = rdtype) ∨
      r = .error .noResponse ∨ r = .error .cnameTooLong ∨
      r = .error .noUsable :=
  resolveLoop_partial net rdtype r fuel domain 0 ROOT_SERVERS h

/-- C1 witness: a transport whose first reply answers the query makes the
walk terminate, and the theorem then classifies the outcome. -/
theorem resolve_partial_correctness_witness :
    (∃ rs, (Except.ok [aRRset "example.com" "7.7.7.7"] : Except RErr (List RRset))
        = .ok [rs] ∧ rs.rdtype = dnsA) ∨
      (Except.ok [aRRset "example.com" "7.7.7.7"] : Except RErr (List RRset))
        = .error .noResponse ∨
      (Except.ok [aRRset "example.com" "7.7.7.7"] : Except RErr (List RRset))
        = .error .cnameTooLong ∨
      (Except.ok [aRRset "example.com" "7.7.7.7"] : Except RErr (List RRset))
        = .error .noUsable :=
  resolve_partial_correctness oneShotNet 1 "example.com" dnsA _ rfl

/-- C1 counterexample: under `badNet` — every server replies instantly (so
per-call timeouts are bounded) with a glue-only referral and no CNAME is
ever followed — `iterative_resolve` never returns, for any number of loop
iterations: the claim that the walk always terminates is false. -/
theorem resolve_nontermination_counterexample :
    ¬ ∃ (fuel : Nat) (r : Except RErr (List RRset)),
      iterative_resolve badNet fuel "example.com" dnsA = some r := by
  rintro ⟨fuel, r, h⟩
  rw [iterative_resolve,
    badNet_loops dnsA fuel "example.com" 0 ROOT_SERVERS
      (by simp [ROOT_SERVERS])] at h
  exact Option.noConfusion h

/-- C2: a CNAME hop increments the alias-chain counter by exactly 1; the
walk fails with AliasChainTooLong exactly when the incremented counter
exceeds 10, and otherwise continues at the alias target with the ServerSet
reset to the root hints.  At the boundary, a chain of exactly 10
redirections whose final answer matches succeeds, and an 11th redirection
fails. -/
theorem cname_hop_transition (net : Network) (fuel : Nat) (qname : String)
    (chain : Nat) (rdtype : RdType) (servers : List String) (resp : Response)
    (tgt : String)
    (hp : resolve_once net qname rdtype servers = some resp)
    (hs : answer_scan rdtype resp.answer none = .noMatch (some tgt)) :
    (resolveLoop net (fuel + 1) qname chain rdtype servers =
      if chain + 1 > MAX_CNAME_CHAIN then some (.error .cnameTooLong)
      else resolveLoop net fuel tgt (chain + 1) rdtype ROOT_SERVERS)
    ∧ iterative_resolve chainNet 11 "h0" dnsA = some (.ok [aRRset "h10" "1.2.3.4"])
    ∧ iterative_resolve loopNet 11 "x" dnsA = some (.error .cnameTooLong) := by
  refine ⟨?_, rfl, rfl⟩
  simp only [resolveLoop, hp, hs]

/-- C2 witness: the transition applied to the first hop of the concrete
10-hop chain. -/
theorem cname_hop_transition_witness :
    (resolveLoop chainNet 1 "h0" 0 dnsA ROOT_SERVERS =
      if 0 + 1 > MAX_CNAME_CHAIN then some (.error .cnameTooLong)
      else resolveLoop chainNet 0 "h1" (0 + 1) dnsA ROOT_SERVERS)
    ∧ iterative_resolve chainNet 11 "h0" dnsA = some (.ok [aRRset "h10" "1.2.3.4"])
    ∧ iterative_resolve loopNet 11 "x" dnsA = some (.error .cnameTooLong) :=
  cname_hop_transition chainNet 0 "h0" 0 dnsA ROOT_SERVERS
    { answer := [cnameRRset "h0" "h1"] } "h1" rfl rfl

/-- C3 (amended): in `resolver.py`, when every server in the ServerSet
fails at the transport level the walk fails with NoResponse and no
individual transport failure is terminal; in `mydig.py`, the walk instead
terminates with the LAST failing server's re-raised transport error. -/
theorem noresponse_vs_last_transport_error (net : Network) (netE : NetworkE)
    (fuel : Nat) (qname : String) (chain : Nat) (rdtype : RdType)
    (servers init : List String) (last : String) (err : String → String)
    (hfail : ∀ s ∈ servers, send_query net qname rdtype s = none)
    (hfailE : ∀ s ∈ init ++ [last],
      netE (clear_rd (make_query qname rdtype)) s = .error (err s)) :
    resolveLoop net (fuel + 1) qname chain rdtype servers
        = some (.error .noResponse)
    ∧ mydigResolveLoop netE (fuel + 1) qname chain rdtype (init ++ [last])
        = some (.error (.transport last (err last))) := by
  constructor
  · simp only [resolveLoop, resolve_once_none net qname rdtype servers hfail]
  · simp only [mydigResolveLoop,
      resolve_once_mydig_allfail netE qname rdtype err init last hfailE none]

/-- C3 witness: all root servers unreachable under both transports. -/
theorem noresponse_vs_last_transport_error_witness :
    resolveLoop noneNet 1 "example.com" 0 dnsA ROOT_SERVERS
        = some (.error .noResponse)
    ∧ mydigResolveLoop allFailNet 1 "example.com" 0 dnsA ["203.0.113.1"]
        = some (.error (.transport "203.0.113.1" "timed out")) :=
  noresponse_vs_last_transport_error noneNet allFailNet 0 "example.com" 0 dnsA
    ROOT_SERVERS [] "203.0.113.1" (fun _ => "timed out")
    (fun _ _ => rfl) (fun _ _ => rfl)

/-- C3 counterexample: in `mydig.py`, with every server failing at the
transport level, the walk's terminal error IS an individual server's
transport failure (the last root server's), not NoResponse — refuting the
claim as stated for that script. -/
theorem mydig_transport_error_is_terminal :
    mydig_iterative_resolve allFailNet 1 "example.com" dnsA
        = some (.error (.transport "2001:dc3::35" "timed out"))
    ∧ MyErr.transport "2001:dc3::35" "timed out" ≠ MyErr.noResponse :=
  ⟨rfl, by decide⟩

/-- C4 (amended): `resolver.py`'s racer reports failure only when no walk
is still running, and keeps waiting while any walk runs, so a single
failed walk never ends the race; `mydig.py`'s racer instead reports a
recorded error as soon as it is observed, even while the other walk is
still running. -/
theorem racer_failure_arbitration (h : Holder) (alive : List Bool) (e : String)
    (hres : h.result? = none) :
    ((alive.all fun b => !b) = false → resolver_poll h alive = .keepWaiting)
    ∧ (resolver_poll h alive = .lookupFailed → (alive.all fun b => !b) = true)
    ∧ (h.error? = some e → mydig_poll h alive = .reportError e) := by
  refine ⟨?_, ?_, ?_⟩
  · intro ha; simp [resolver_poll, hres, ha]
  · intro hl
    by_cases ha : (alive.all fun b => !b) = true
    · exact ha
    · rw [Bool.not_eq_true] at ha
      simp [resolver_poll, hres, ha] at hl
  · intro he; simp [mydig_poll, hres, he]

/-- C4 witness: no result yet, an error recorded, one thread dead and one
alive. -/
theorem racer_failure_arbitration_witness :
    (([false, true].all fun b => !b) = false →
      resolver_poll errHolder [false, true] = .keepWaiting)
    ∧ (resolver_poll errHolder [false, true] = .lookupFailed →
      (([false, true].all fun b => !b) = true))
    ∧ (errHolder.error? = some "No response from any server" →
      mydig_poll errHolder [false, true]
        = .reportError "No response from any server") :=
  racer_failure_arbitration errHolder [false, true]
    "No response from any server" rfl

/-- C4 counterexample: in `mydig.py`, when exactly one walk has failed
(error recorded, its thread dead) and the other walk is still running, the
racer reports the failure instead of keeping waiting — refuting the claim
as stated. -/
theorem mydig_racer_fails_early :
    mydig_poll errHolder [false, true] = .reportError "No response from any server"
    ∧ mydig_poll errHolder [false, true] ≠ .keepWaiting :=
  ⟨rfl, by decide⟩

/-- C5: if the answer section contains a record set of the requested type,
the walk succeeds immediately with the FIRST such record set, whatever
else (CNAMEs before or after it, later matching sets) the section
contains. -/
theorem first_matching_answer_wins (net : Network) (fuel : Nat)
    (qname : String) (chain : Nat) (rdtype : RdType) (servers : List String)
    (resp : Response) (rs : RRset)
    (hp : resolve_once net qname rdtype servers = some resp)
    (hf : resp.answer.find? (fun s => s.rdtype == rdtype) = some rs) :
    resolveLoop net (fuel + 1) qname chain rdtype servers = some (.ok [rs]) := by
  have hscan := find?_answer_scan rdtype resp.answer rs hf none
  simp only [resolveLoop, hp, hscan]

/-- C5 witness: an answer section holding a CNAME first and then two
matching A record sets yields the first matching set, not the CNAME and
not the later set. -/
theorem first_matching_answer_wins_witness :
    resolveLoop mixedNet 1 "example.com" 0 dnsA ROOT_SERVERS
      = some (.ok [aRRset "example.com" "7.7.7.7"]) :=
  first_matching_answer_wins mixedNet 0 "example.com" 0 dnsA ROOT_SERVERS
    respMixed (aRRset "example.com" "7.7.7.7") rfl rfl

/-- C6: with no matching answer and no CNAME, a response whose additional
section yields glue addresses makes the next ServerSet exactly those glue
addresses, in section order, with the query name and alias counter
unchanged — whatever NS record sets the authority section carries, the
Nameserver Address Resolver is not consulted. -/
theorem glue_preferred_over_ns (net : Network) (fuel : Nat) (qname : String)
    (chain : Nat) (rdtype : RdType) (servers : List String) (resp : Response)
    (g : String) (gs : List String)
    (hp : resolve_once net qname rdtype servers = some resp)
    (hs : answer_scan rdtype resp.answer none = .noMatch none)
    (hg : extract_glue_ips resp = g :: gs) :
    resolveLoop net (fuel + 1) qname chain rdtype servers =
      resolveLoop net fuel qname chain rdtype (extract_glue_ips resp) := by
  simp only [resolveLoop, hp, hs, hg]

/-- C6 witness: a response carrying both glue and an NS delegation to a
different server continues with exactly the glue addresses. -/
theorem glue_preferred_over_ns_witness :
    resolveLoop glueNet 1 "example.com" 0 dnsA ROOT_SERVERS =
      resolveLoop glueNet 0 "example.com" 0 dnsA (extract_glue_ips respGlueAndNS) :=
  glue_preferred_over_ns glueNet 0 "example.com" 0 dnsA ROOT_SERVERS
    respGlueAndNS "192.5.6.30" [] rfl rfl rfl

/-- C7: the Nameserver Address Resolver returns a (possibly empty)
sequence of addresses and never propagates an error to its caller: given
that every nested walk returns, the extraction returns a list; a name
whose nested walk errors is skipped ("bad." below) and an authority
section whose every name fails yields the empty list. -/
theorem ns_resolver_never_fails {ε : Type}
    (resolve1 : String → RdType → Option (Except ε (List RRset)))
    (resp : Response) (rdtype : RdType)
    (htotal : ∀ n t, resolve1 n t ≠ none) :
    (extract_ns_ips_with resolve1 resp rdtype).isSome = true
    ∧ extract_ns_ips_with demoNsResolve respBadGood dnsA = some ["5.6.7.8"]
    ∧ extract_ns_ips_with demoNsResolve respAllBad dnsA = some [] :=
  ⟨ns_ips_of_auth_total resolve1 rdtype htotal resp.authority, rfl, rfl⟩

/-- C7 witness: the theorem applied to the concrete total nested
resolver. -/
theorem ns_resolver_never_fails_witness :
    (extract_ns_ips_with demoNsResolve respBadGood dnsA).isSome = true
    ∧ extract_ns_ips_with demoNsResolve respBadGood dnsA = some ["5.6.7.8"]
    ∧ extract_ns_ips_with demoNsResolve respAllBad dnsA = some [] :=
  ns_resolver_never_fails demoNsResolve respBadGood dnsA
    (fun n t => by by_cases hb : n = "bad." <;> simp [demoNsResolve, hb])

/-- C8 (amended): taking the publish step's membership check and store as
one atomic unit, the shared result slot is single-assignment — once it
holds the first writer's triple, any sequence of later publishes leaves it
unchanged; equally, a walk whose check runs after the other's write never
overwrites (second conjunct).  The source's check and write are two
separate statements, however, and the interleaving
check-check-write-write lets the second writer overwrite (see the
counterexample). -/
theorem atomic_publish_first_writer_wins (h : Holder)
    (v0 : RdType × List RRset × Nat) (vs : List (RdType × List RRset × Nat))
    (hset : h.result? = some v0) :
    (vs.foldl publish_result h).result? = some v0
    ∧ (race_run vA vB [true, true, false, false] {}).holder.result? = some vA := by
  refine ⟨?_, rfl⟩
  induction vs generalizing h with
  | nil => exact hset
  | cons v vs ih =>
    rw [List.foldl_cons]
    exact ih _ (by simp [publish_result, hset])

/-- C8 witness: a holder already holding the A walk's triple is unchanged
by two later publishes. -/
theorem atomic_publish_first_writer_wins_witness :
    (([vB, vB].foldl publish_result { result? := some vA }).result? = some vA)
    ∧ (race_run vA vB [true, true, false, false] {}).holder.result? = some vA :=
  atomic_publish_first_writer_wins { result? := some vA } vA [vB, vB] rfl

/-- C8 counterexample: with the membership check and the store as the two
separate interpreter steps they are in the source, the schedule
A-check, B-check, A-write, B-write first publishes the A walk's triple and
then lets the B walk overwrite it with a different triple — refuting
single-assignment as stated. -/
theorem second_writer_overwrites_result :
    (race_run vA vB [true, false, true] {}).holder.result? = some vA
    ∧ (race_run vA vB [true, false, true, false] {}).holder.result? = some vB
    ∧ vA ≠ vB :=
  ⟨rfl, rfl, by decide⟩

/-- C9: every outgoing query is sent non-recursively: clearing RD zeroes
the recursion-desired bit whatever the prior flag word, `send_query`
passes exactly the cleared query to the transport (the only call path that
sends), and the concrete query built from dnspython's default flags has no
flag left at all. -/
theorem outgoing_queries_nonrecursive (q : QueryMsg) (net : Network)
    (name : String) (rdtype : RdType) (server : String) :
    (clear_rd q).flags &&& RD_FLAG = 0
    ∧ send_query net name rdtype server
        = net (clear_rd (make_query name rdtype)) server
    ∧ (clear_rd (make_query name rdtype)).flags = 0 := by
  refine ⟨?_, rfl, ?_⟩
  case refine_2 =>
    show RD_FLAG &&& 65279 = 0
    decide
  show q.flags &&& 65279 &&& 256 = 0
  apply Nat.eq_of_testBit_eq
  intro i
  rw [Nat.testBit_land, Nat.testBit_land, Nat.zero_testBit]
  by_cases hi : i = 8
  · subst hi
    have h65279 : Nat.testBit 65279 8 = false := by decide
    simp [h65279]
  · have h256 : Nat.testBit 256 i = false := by
      have h2 : (256 : Nat) = 2 ^ 8 := by norm_num
      rw [h2]
      exact Nat.testBit_two_pow_of_ne (fun hh => hi hh.symm)
    simp [h256]

/-- C10: when the glueless NS fallback is taken, the next ServerSet is the
concatenation of the addresses obtained by re-resolving every NS target
for type A and then for type AAAA — both families regardless of the
walk's own requested type, all IPv4-derived addresses first — with the
query name and alias counter unchanged; and per nameserver name only the
first record set of the nested result contributes (second conjunct: a
nested result with two record sets yields only the first one's
address). -/
theorem glueless_fallback_both_families (net : Network) (fuel : Nat)
    (qname : String) (chain : Nat) (rdtype : RdType) (servers : List String)
    (resp : Response) (ipsA ipsAAAA : List String) (x : String)
    (xs : List String)
    (hp : resolve_once net qname rdtype servers = some resp)
    (hs : answer_scan rdtype resp.answer none = .noMatch none)
    (hg : extract_glue_ips resp = [])
    (hA : extract_ns_ips_with
      (fun n t => resolveLoop net fuel n 0 t ROOT_SERVERS) resp dnsA
        = some ipsA)
    (hAAAA : extract_ns_ips_with
      (fun n t => resolveLoop net fuel n 0 t ROOT_SERVERS) resp dnsAAAA
        = some ipsAAAA)
    (hne : ipsA ++ ipsAAAA = x :: xs) :
    resolveLoop net (fuel + 1) qname chain rdtype servers =
      resolveLoop net fuel qname chain rdtype (ipsA ++ ipsAAAA)
    ∧ extract_ns_ips_with demoTwoSets respOneNS dnsA = some ["1.1.1.1"] := by
  refine ⟨?_, rfl⟩
  simp only [resolveLoop, hp, hs, hg, hA, hAAAA, hne]

/-- C10 witness: a glueless referral whose single NS name resolves to one
IPv4 and one IPv6 address continues with the IPv4 address first. -/
theorem glueless_fallback_both_families_witness :
    (resolveLoop netNS 2 "example.com" 0 dnsA ROOT_SERVERS =
      resolveLoop netNS 1 "example.com" 0 dnsA (["9.9.9.9"] ++ ["2001:db8::9"]))
    ∧ extract_ns_ips_with demoTwoSets respOneNS dnsA = some ["1.1.1.1"] :=
  glueless_fallback_both_families netNS 1 "example.com" 0 dnsA ROOT_SERVERS
    respAuthOnly ["9.9.9.9"] ["2001:db8::9"] "9.9.9.9" ["2001:db8::9"]
    rfl rfl rfl rfl rfl rfl

end DnsResolver
